import Mathlib

/-!
# Verification of the go-kvstore in-memory key-value store

A shallow embedding of the `kvstore` package (`store.go`, `value.go`,
`validation.go`) and proofs about its public operations.

Modelling conventions:
* Go `[]byte` payloads and keys are modelled as `String` (a stand-in for the
  byte sequence; every byte relevant to parsing and validation in the claims
  is ASCII, where `Char`-level operations coincide with Go's byte/rune view).
* Go `time.Time` is modelled as `Int` nanoseconds since an arbitrary epoch;
  `time.Duration` arithmetic (`time.Duration(ttl) * time.Second`) is 64-bit
  and wraps, which is modelled by `wrap64`.
* `int64` values are modelled as `Int` with explicit 64-bit wraparound
  (`wrap64`) exactly where the Go code performs `int64` arithmetic.
* Go `error` results are modelled by `Option GoError` (`none` = nil error).
  `errorsWrap` models `github.com/pkg/errors.Wrap`, which returns nil when
  its argument is nil.
* The store's `map[string]*ValueItem` is modelled as an association list with
  at most one binding per key (`lookupKey` / `insertKey` / `eraseKey`
  implement the Go map read, write and delete used by the code).
* A `PersistenceController` (the backing-store port) is abstract: it is
  modelled by the outcomes its `Write`/`Delete`/`Read` calls produce, since
  the store code only branches on those outcomes.
* The store's `nowFunc` clock is passed explicitly as a `now : Int` argument
  to each operation that reads it.
-/

/-- Smallest `int64` value (`math.MinInt64`). -/
def int64Min : Int := -(2 ^ 63)

/-- Largest `int64` value (`math.MaxInt64`). -/
def int64Max : Int := 2 ^ 63 - 1

/-- Two's-complement wraparound of 64-bit signed integer arithmetic. -/
def wrap64 (z : Int) : Int := (z + 2 ^ 63) % 2 ^ 64 - 2 ^ 63

/-- Nanoseconds per second (`time.Second` as an integer duration). -/
def nsPerSec : Int := 1000000000

/-- `TTLType` from `store.go` (`type TTLType int64`). -/
abbrev TTLType := Int

/-- Sentinel `TTLKeyNotExist` from `store.go`: the key does not exist when
querying a TTL of a key. -/
def TTLKeyNotExist : TTLType := -2

/-- Sentinel `TTLNoExpirySet` from `store.go`: the key does not have an expiry
when querying the TTL of a key. -/
def TTLNoExpirySet : TTLType := -1

/-- Go `error` values produced by the `kvstore` package.  `none : Option
GoError` models a nil error. -/
inductive GoError where
  /-- `ErrKeyInvalid` ("key contains invalid characters"). -/
  | keyInvalid : GoError
  /-- `ErrNotFoundErr` ("key not found"). -/
  | notFound : GoError
  /-- An error created by `errors.New` / `fmt.Errorf` with the given message. -/
  | msg : String → GoError
  /-- A non-nil error wrapped by `errors.Wrap(err, message)`. -/
  | wrapped : String → GoError → GoError
  deriving DecidableEq, Repr

/-- Model of `github.com/pkg/errors.Wrap`: wrapping a nil error yields nil. -/
def errorsWrap (e : Option GoError) (message : String) : Option GoError :=
  match e with
  | none => none
  | some err => some (.wrapped message err)

/-- Model of `strconv.ParseInt(s, 10, 64)`: an optional leading `+`/`-`
followed by at least one ASCII decimal digit, with the value required to fit
in `int64`.  Returns `none` exactly when Go returns a non-nil error (callers
in this package only distinguish nil from non-nil errors). -/
def parseInt64 (s : String) : Option Int :=
  match s.data with
  | [] => none
  | c :: cs =>
    let signAndDigits : Bool × List Char :=
      if c = '+' then (false, cs)
      else if c = '-' then (true, cs)
      else (false, c :: cs)
    let neg := signAndDigits.1
    let ds := signAndDigits.2
    if ds.isEmpty then none
    else if ds.all Char.isDigit then
      let n : Nat := ds.foldl (fun a d => a * 10 + (d.toNat - 48)) 0
      if neg then
        if (n : Int) ≤ 2 ^ 63 then some (-(n : Int)) else none
      else
        if (n : Int) ≤ 2 ^ 63 - 1 then some (n : Int) else none
    else none

/-- Model of `fmt.Sprintf("%d", i)` for an `int64` value. -/
def formatInt (i : Int) : String := toString i

/-- `CounterConstraints` from `value.go`. -/
structure CounterConstraints where
  Min : Int
  Max : Int
  deriving DecidableEq, Repr

/-- `ValueItem` from `value.go`. -/
structure ValueItem where
  Data : String
  Counter : Option CounterConstraints
  Ts : Int
  TTL : TTLType
  dataLoaded : Bool
  deriving DecidableEq, Repr

/-- `NewValueItem` from `value.go`: a numeric payload makes the item
counter-typed with full `int64` bounds. -/
def NewValueItem (dataBytes : String) (ts : Int) : ValueItem :=
  if (parseInt64 dataBytes).isSome then
    { Data := dataBytes
      Counter := some { Min := int64Min, Max := int64Max }
      Ts := ts
      TTL := TTLNoExpirySet
      dataLoaded := true }
  else
    { Data := dataBytes
      Counter := none
      Ts := ts
      TTL := TTLNoExpirySet
      dataLoaded := true }

/-- `ValueItem.SetData` from `value.go`.  The Go method always returns a nil
error, so it is modelled as a pure update.  (The `store.go` call site passes
the current time as an extra argument that this version of `SetData` does not
take; no field other than `Data`, `Counter` and `dataLoaded` is updated.) -/
def ValueItem.SetData (mv : ValueItem) (dataBytes : String) : ValueItem :=
  let mv' :=
    if (parseInt64 dataBytes).isSome && mv.Counter.isNone then
      { mv with Counter := some { Min := int64Min, Max := int64Max } }
    else mv
  { mv' with Data := dataBytes, dataLoaded := true }

/-- `ValueItem.expired` from `value.go`: entries with `TTL <= 0` never expire;
otherwise the entry is expired once `Ts + TTL seconds` lies strictly before
`now`.  The duration product is 64-bit and wraps. -/
def ValueItem.expired (mv : ValueItem) (now : Int) : Bool :=
  if mv.TTL ≤ 0 then false
  else decide (mv.Ts + wrap64 (mv.TTL * nsPerSec) < now)

/-- The punctuation allow-list `validRunes` from `validation.go`. -/
def validRunes : List Char := [':', '@', '#', '+', '-', '_']

/-- `containsRune` from `validation.go`. -/
def containsRune (runes : List Char) (r : Char) : Bool :=
  match runes with
  | [] => false
  | r2 :: rest => if r2 = r then true else containsRune rest r

/-- Model of Go `unicode.IsLetter`.  Exact on the ASCII range, where
`unicode.IsLetter` holds precisely for `A`-`Z` and `a`-`z`; every character
examined in this development is ASCII. -/
def goIsLetter (c : Char) : Bool := c.isAlpha

/-- Model of Go `unicode.IsDigit`.  Exact on the ASCII range, where
`unicode.IsDigit` holds precisely for `0`-`9`; every character examined in
this development is ASCII. -/
def goIsDigit (c : Char) : Bool := c.isDigit

/-- The rune loop of `KeyValid` from `validation.go`. -/
def keyValidChars : List Char → Bool
  | [] => true
  | r :: rest =>
    if !goIsLetter r && !goIsDigit r && !containsRune validRunes r then false
    else keyValidChars rest

/-- `KeyValid` from `validation.go`: every rune must be a letter, a digit, or
one of `validRunes`.  (The loop over an empty key immediately returns true.) -/
def KeyValid (key : String) : Bool := keyValidChars key.data

/-- The backing-store port (`PersistenceController` from
`data_persister.go`), modelled by the outcomes of its calls: the error
returned by `Write(key, mv)`, the error returned by `Delete(key)`, and the
result of `Read(key, true)`. -/
structure PersistenceController where
  writeErr : String → ValueItem → Option GoError
  deleteErr : String → Option GoError
  readResult : String → Except GoError ValueItem

/-- The in-memory `map[string]*ValueItem` of the store, as an association
list with at most one binding per key. -/
abbrev StoreData := List (String × ValueItem)

/-- Go map read `kv.data[key]`. -/
def lookupKey (d : StoreData) (key : String) : Option ValueItem :=
  match d with
  | [] => none
  | (k, v) :: rest => if k = key then some v else lookupKey rest key

/-- Go map write `kv.data[key] = mv` (replaces an existing binding). -/
def insertKey (d : StoreData) (key : String) (mv : ValueItem) : StoreData :=
  match d with
  | [] => [(key, mv)]
  | (k, v) :: rest =>
    if k = key then (key, mv) :: rest else (k, v) :: insertKey rest key mv

/-- Go map delete `delete(kv.data, key)`. -/
def eraseKey (d : StoreData) (key : String) : StoreData :=
  match d with
  | [] => []
  | (k, v) :: rest =>
    if k = key then rest else (k, v) :: eraseKey rest key

namespace Store

/-- The loop body of the write-through fan-out in `Store.persist`: a failed
`Write` replaces the error to be returned, a successful one leaves it. -/
def writeErrStep (key : String) (mv : ValueItem) (acc : Option GoError)
    (p : PersistenceController) : Option GoError :=
  match p.writeErr key mv with
  | some e => some (.wrapped "d.Write" e)
  | none => acc

/-- The loop body of the delete fan-out in `Store.delete`: a failed `Delete`
replaces the error to be returned, a successful one leaves it. -/
def deleteErrStep (key : String) (acc : Option GoError)
    (p : PersistenceController) : Option GoError :=
  match p.deleteErr key with
  | some e => some (.wrapped "p.Delete" e)
  | none => acc

/-- `Store.persist` from `store.go`: with no controllers configured it is a
no-op; otherwise it writes the entry through to every controller in order and
returns the last write error encountered, wrapped, or nil if all succeed. -/
def persist (ps : List PersistenceController) (d : StoreData) (key : String) :
    Option GoError :=
  if ps.isEmpty then none
  else
    match lookupKey d key with
    | none => some (.msg "persist key does not exist")
    | some mv => ps.foldl (writeErrStep key mv) none

/-- The private `Store.setData` from `store.go`: reuse the existing item (or
build a fresh one), update its payload, store it back and write through. -/
def setData (ps : List PersistenceController) (d : StoreData)
    (key dataBytes : String) (now : Int) : StoreData × Option GoError :=
  let mv :=
    match lookupKey d key with
    | some mv => mv
    | none => NewValueItem dataBytes now
  let mv' := mv.SetData dataBytes
  let d' := insertKey d key mv'
  (d', persist ps d' key)

/-- `Store.Set` from `store.go`. -/
def Set (ps : List PersistenceController) (d : StoreData)
    (key value : String) (now : Int) : StoreData × Option GoError :=
  if !KeyValid key then (d, some .keyInvalid)
  else setData ps d key value now

/-- The private `Store.readFromFirstStore` from `store.go`: with no
controllers it returns nil data and nil error; otherwise it reads the full
value from the first controller, merges it into memory on success, and
surfaces the read error on failure. -/
def readFromFirstStore (ps : List PersistenceController) (d : StoreData)
    (key : String) : StoreData × Option String × Option GoError :=
  match ps with
  | [] => (d, none, none)
  | p :: _ =>
    match p.readResult key with
    | .error e => (d, none, some e)
    | .ok mv => (insertKey d key mv, some mv.Data, none)

/-- `Store.Get` from `store.go`: returns the (possibly updated) store data,
the payload and the error. -/
def Get (ps : List PersistenceController) (d : StoreData) (key : String)
    (now : Int) : StoreData × Option String × Option GoError :=
  if !KeyValid key then (d, none, some .keyInvalid)
  else
    match lookupKey d key with
    | none => (d, none, some .notFound)
    | some mv =>
      if mv.expired now then (d, none, some .notFound)
      else if mv.dataLoaded then (d, some mv.Data, none)
      else readFromFirstStore ps d key

/-- The private `Store.delete` from `store.go`: not-found if absent;
otherwise remove the binding, attempt `Delete` on every controller and return
the last deletion error encountered, wrapped, or nil if all succeed. -/
def delete (ps : List PersistenceController) (d : StoreData) (key : String) :
    StoreData × Option GoError :=
  match lookupKey d key with
  | none => (d, some .notFound)
  | some _ =>
    let d' := eraseKey d key
    (d', ps.foldl (deleteErrStep key) none)

/-- `Store.Delete` from `store.go`.  Note: unlike every other public
operation, it does not validate the key. -/
def Delete (ps : List PersistenceController) (d : StoreData) (key : String) :
    StoreData × Option GoError :=
  delete ps d key

/-- The private `Store.setTTL` from `store.go`. -/
def setTTLImpl (ps : List PersistenceController) (d : StoreData)
    (key : String) (ttl : TTLType) : StoreData × Option GoError :=
  match lookupKey d key with
  | none => (d, some .notFound)
  | some mv =>
    let d' := insertKey d key { mv with TTL := ttl }
    match persist ps d' key with
    | some e => (d', some (.wrapped "store.setTTL kv.persist" e))
    | none => (d', none)

/-- `Store.SetTTL` from `store.go`. -/
def SetTTL (ps : List PersistenceController) (d : StoreData) (key : String)
    (ttl : Int) : StoreData × Option GoError :=
  if !KeyValid key then (d, some .keyInvalid)
  else setTTLImpl ps d key ttl

/-- Integer ceiling division by a positive divisor; models
`math.Ceil(d.Seconds())` on a nanosecond duration.  (Go computes the float64
quotient and its ceiling; this is exact on the inputs of this development,
whose durations are whole multiples of a second well inside float64's exact
range.) -/
def ceilDivPos (a b : Int) : Int := -((-a).fdiv b)

/-- `Store.TTL` from `store.go`: sentinel for an invalid or missing key;
otherwise the whole seconds from `now` up to `Ts + TTL seconds`, rounded up
and floored at 0. -/
def TTL (d : StoreData) (key : String) (now : Int) : TTLType :=
  if !KeyValid key then TTLKeyNotExist
  else
    match lookupKey d key with
    | none => TTLKeyNotExist
    | some mv =>
      let expireTime := mv.Ts + wrap64 (mv.TTL * nsPerSec)
      let ttl := ceilDivPos (expireTime - now) nsPerSec
      if ttl < 0 then 0 else ttl

/-- `Store.Touch` from `store.go`. -/
def Touch (ps : List PersistenceController) (d : StoreData) (key : String)
    (now : Int) : StoreData × Option GoError :=
  if !KeyValid key then (d, some .keyInvalid)
  else
    match lookupKey d key with
    | none => (d, some .notFound)
    | some mv =>
      if mv.expired now then (d, some .notFound)
      else
        let d' := insertKey d key { mv with Ts := now }
        match persist ps d' key with
        | some e => (d', some (.wrapped "Store.Touch kv.persist" e))
        | none => (d', none)

/-- `Store.Counter` from `store.go`: returns the (possibly updated) store
data, the returned counter value and the error.  On an absent key the delta
becomes the initial value via `setData`.  On a present key the payload is
parsed, the (nil-error!) `errors.Wrap` guards the missing-bounds branch, the
delta is applied with `int64` wraparound and checked against the bounds, and
the new value is stored. -/
def Counter (ps : List PersistenceController) (d : StoreData) (key : String)
    (delta : Int) (now : Int) : StoreData × Int × Option GoError :=
  if !KeyValid key then (d, 0, some .keyInvalid)
  else
    match lookupKey d key with
    | none =>
      let r := setData ps d key (formatInt delta) now
      match r.2 with
      | some e => (r.1, 0, some (.wrapped "Store.Counter kv.setData" e))
      | none => (r.1, delta, none)
    | some mv =>
      match parseInt64 mv.Data with
      | none =>
        (d, 0, some (.wrapped "Store.Counter strconv.ParseInt"
          (.msg "invalid syntax")))
      | some i =>
        match mv.Counter with
        | none =>
          -- Go: `errors.Wrap(err, "Store.Counter counter boundaries not
          -- set")` where `err` is the nil error left by the successful
          -- ParseInt, so the returned error is nil.
          (d, 0, errorsWrap none "Store.Counter counter boundaries not set")
        | some c =>
          let i' := wrap64 (i + delta)
          if i' > c.Max then
            (d, 0, some (.msg "Store.Counter maximum value reached"))
          else if i' < c.Min then
            (d, 0, some (.msg "Store.Counter minimum value reached"))
          else
            let r := setData ps d key (formatInt i') now
            match r.2 with
            | some _ =>
              (r.1, 0, some (.msg "Store.Counter minimum value reached"))
            | none => (r.1, i', none)

/-- `Store.SetCounterLimits` from `store.go`: errors on an absent key and on
a non-counter key; otherwise overwrites the bounds and writes through. -/
def SetCounterLimits (ps : List PersistenceController) (d : StoreData)
    (key : String) (mn mx : Int) : StoreData × Option GoError :=
  if !KeyValid key then (d, some .keyInvalid)
  else
    match lookupKey d key with
    | none => (d, some (.msg "Store.SetCounterLimits key does not exist"))
    | some mv =>
      match mv.Counter with
      | none => (d, some (.msg "Store.SetCounterLimits key is not a counter"))
      | some _ =>
        let d' := insertKey d key { mv with Counter := some { Min := mn, Max := mx } }
        (d', persist ps d' key)

end Store

/-! ## Concrete sample data for closed instances -/

/-- A loaded, never-expiring, non-counter entry. -/
def sampleItem : ValueItem :=
  { Data := "x", Counter := none, Ts := 0, TTL := TTLNoExpirySet,
    dataLoaded := true }

/-- A loaded entry holding the payload `"hello"`. -/
def helloItem : ValueItem :=
  { Data := "hello", Counter := none, Ts := 0, TTL := TTLNoExpirySet,
    dataLoaded := true }

/-- The entry `Set` creates for the numeric payload `"42"`. -/
def item42 : ValueItem :=
  { Data := "42", Counter := some { Min := int64Min, Max := int64Max },
    Ts := 0, TTL := TTLNoExpirySet, dataLoaded := true }

/-- A numeric-payload entry whose counter bounds are absent (the state the
spec calls "bounds cleared by external tampering"). -/
def numItemNoBounds : ValueItem :=
  { Data := "5", Counter := none, Ts := 0, TTL := TTLNoExpirySet,
    dataLoaded := true }

/-- A counter entry holding `math.MaxInt64` under full-range bounds, exactly
as `Set("k", "9223372036854775807")` creates it. -/
def maxIntItem : ValueItem :=
  { Data := "9223372036854775807"
    Counter := some { Min := int64Min, Max := int64Max }
    Ts := 0, TTL := TTLNoExpirySet, dataLoaded := true }

/-- A counter entry holding `-1` under bounds `[-1, 1]`. -/
def boundedItem : ValueItem :=
  { Data := "-1", Counter := some { Min := -1, Max := 1 }, Ts := 0,
    TTL := TTLNoExpirySet, dataLoaded := true }

/-- An entry whose `TTL` field is `0`. -/
def zeroTTLItem : ValueItem :=
  { Data := "5", Counter := none, Ts := 0, TTL := 0, dataLoaded := true }

/-- A backing-store controller whose every call fails with the given error. -/
def failingController (e : GoError) : PersistenceController :=
  { writeErr := fun _ _ => some e
    deleteErr := fun _ => some e
    readResult := fun _ => .error e }

/-! ## Helper lemmas -/

/-- Reading back a key just written into the map yields the written item. -/
theorem lookupKey_insertKey_self (d : StoreData) (key : String)
    (mv : ValueItem) : lookupKey (insertKey d key mv) key = some mv := by
  induction d with
  | nil => simp [insertKey, lookupKey]
  | cons head rest ih =>
    obtain ⟨k, v⟩ := head
    by_cases h : k = key
    · simp [insertKey, lookupKey, h]
    · simp [insertKey, lookupKey, h, ih]

/-- `SetData` stores exactly the given payload. -/
theorem ValueItem.SetData_Data (mv : ValueItem) (b : String) :
    (mv.SetData b).Data = b := rfl

/-- `SetData` marks the item as loaded. -/
theorem ValueItem.SetData_dataLoaded (mv : ValueItem) (b : String) :
    (mv.SetData b).dataLoaded = true := rfl

/-- A `Set` call that returns a nil error was made with a valid key. -/
theorem Set_success_keyValid (ps : List PersistenceController) (d : StoreData)
    (key v : String) (now : Int) (d' : StoreData)
    (h : Store.Set ps d key v now = (d', none)) : KeyValid key = true := by
  cases hk : KeyValid key
  · simp [Store.Set, hk] at h
  · rfl

/-- A warm `Get` on a freshly written, loaded, unexpired entry returns its
payload. -/
theorem Get_insert_loaded (ps' : List PersistenceController) (d : StoreData)
    (key : String) (mv : ValueItem) (now' : Int)
    (hkv : KeyValid key = true)
    (hload : mv.dataLoaded = true)
    (hexp : mv.expired now' = false) :
    Store.Get ps' (insertKey d key mv) key now' =
      (insertKey d key mv, some mv.Data, none) := by
  have hlk := lookupKey_insertKey_self d key mv
  simp [Store.Get, hkv, hlk, hexp, hload]

/-- The delete fan-out leaves the accumulated error untouched across
controllers whose `Delete` succeeds. -/
theorem foldl_deleteErrStep_none (key : String)
    (ps : List PersistenceController) (acc : Option GoError)
    (h : ∀ q ∈ ps, q.deleteErr key = none) :
    ps.foldl (Store.deleteErrStep key) acc = acc := by
  induction ps generalizing acc with
  | nil => rfl
  | cons p rest ih =>
    have hp : p.deleteErr key = none := h p (List.mem_cons_self p rest)
    rw [List.foldl_cons]
    have hstep : Store.deleteErrStep key acc p = acc := by
      simp [Store.deleteErrStep, hp]
    rw [hstep]
    exact ih acc fun q hq => h q (List.mem_cons_of_mem p hq)

/-! ## Claim C1 -/

/-- C1: for every valid key `key` and payload `v`, if `Set(key, v)` succeeds
then a `Get(key)` performed on the resulting store state at any time at which
the entry is not expired (and before any delete or overwrite, i.e. on that
same state) returns exactly `v` with a nil error. -/
theorem c1_set_then_get (ps ps' : List PersistenceController)
    (d d' : StoreData) (key v : String) (now now' : Int)
    (hset : Store.Set ps d key v now = (d', none))
    (hexp : ∀ mv, lookupKey d' key = some mv → mv.expired now' = false) :
    Store.Get ps' d' key now' = (d', some v, none) := by
  have hkv : KeyValid key = true := Set_success_keyValid ps d key v now d' hset
  simp only [Store.Set, hkv, Bool.not_true, Bool.false_eq_true, if_false]
    at hset
  cases hl0 : lookupKey d key with
  | none =>
    simp only [Store.setData, hl0, Prod.mk.injEq] at hset
    obtain ⟨h1, -⟩ := hset
    subst h1
    have hg := Get_insert_loaded ps' d key ((NewValueItem v now).SetData v)
      now' hkv rfl
      (hexp _ (lookupKey_insertKey_self d key ((NewValueItem v now).SetData v)))
    simpa [ValueItem.SetData_Data] using hg
  | some mv0 =>
    simp only [Store.setData, hl0, Prod.mk.injEq] at hset
    obtain ⟨h1, -⟩ := hset
    subst h1
    have hg := Get_insert_loaded ps' d key (mv0.SetData v) now' hkv rfl
      (hexp _ (lookupKey_insertKey_self d key (mv0.SetData v)))
    simpa [ValueItem.SetData_Data] using hg

/-- C1 witness: `Set` of `"hello"` at key `"k"` on the empty store, then
`Get` at a later time, returns `"hello"`. -/
theorem c1_set_then_get_witness :
    Store.Get [] [("k", helloItem)] "k" 7 =
      ([("k", helloItem)], some "hello", none) := by
  refine c1_set_then_get [] [] [] [("k", helloItem)] "k" "hello" 0 7
    (by decide) ?_
  intro mv hmv
  have h2 : some helloItem = some mv := hmv
  cases h2
  decide

/-! ## Claim C2 -/

/-- C2 (amended): for every invalid key, `Set`, `Get`, `SetTTL`, `Touch`,
`Counter` and `SetCounterLimits` reject it with `ErrKeyInvalid` before any
state change, and `TTL` fails fast with the `TTLKeyNotExist` sentinel (it
returns a `TTLType`, not an error).  `Delete` is excluded: it performs no key
validation (see the counterexample). -/
theorem c2_invalid_key_fast_fail (ps : List PersistenceController)
    (d : StoreData) (key v : String) (now ttl delta mn mx : Int)
    (h : KeyValid key = false) :
    Store.Set ps d key v now = (d, some GoError.keyInvalid) ∧
    Store.Get ps d key now = (d, none, some GoError.keyInvalid) ∧
    Store.SetTTL ps d key ttl = (d, some GoError.keyInvalid) ∧
    Store.TTL d key now = TTLKeyNotExist ∧
    Store.Touch ps d key now = (d, some GoError.keyInvalid) ∧
    Store.Counter ps d key delta now = (d, 0, some GoError.keyInvalid) ∧
    Store.SetCounterLimits ps d key mn mx = (d, some GoError.keyInvalid) := by
  refine ⟨?_, ?_, ?_, ?_, ?_, ?_, ?_⟩ <;>
    simp [Store.Set, Store.Get, Store.SetTTL, Store.TTL, Store.Touch,
      Store.Counter, Store.SetCounterLimits, h]

/-- C2 witness: all seven validating operations fast-fail on the invalid key
`"bad key"` (it contains a space). -/
theorem c2_invalid_key_fast_fail_witness :
    Store.Set [] [] "bad key" "v" 0 = ([], some GoError.keyInvalid) ∧
    Store.Get [] [] "bad key" 0 = ([], none, some GoError.keyInvalid) ∧
    Store.SetTTL [] [] "bad key" 5 = ([], some GoError.keyInvalid) ∧
    Store.TTL [] "bad key" 0 = TTLKeyNotExist ∧
    Store.Touch [] [] "bad key" 0 = ([], some GoError.keyInvalid) ∧
    Store.Counter [] [] "bad key" 1 0 = ([], 0, some GoError.keyInvalid) ∧
    Store.SetCounterLimits [] [] "bad key" 0 100 =
      ([], some GoError.keyInvalid) :=
  c2_invalid_key_fast_fail [] [] "bad key" "v" 0 5 1 0 100 (by decide)

/-- C2 counterexample: `Delete` is a public operation, yet on the invalid key
`"bad key"` it does not reject with the invalid-key error: it removes the
entry (a state change) and returns a nil error.  (Such an entry can enter the
map through the startup reload, which does not validate keys.) -/
theorem c2_delete_skips_validation :
    KeyValid "bad key" = false ∧
    Store.Delete [] [("bad key", sampleItem)] "bad key" = ([], none) := by
  constructor
  · decide
  · rfl

/-! ## Claim C3 -/

/-- C3 (code evaluation at the failing input): on a store that does not
contain the key, `SetCounterLimits("k1:200", -1, 1)` returns a
"does not exist" error and creates nothing.  The spec requires it to create
the entry with payload `min` and the given bounds, and the repository's own
test `TestStoreIntegerCounter` (`store_test.go`) requires this call to
succeed on a fresh store. -/
theorem c3_setCounterLimits_fresh_key_errors :
    Store.SetCounterLimits [] [] "k1:200" (-1) 1 =
      ([], some (GoError.msg "Store.SetCounterLimits key does not exist")) := by
  rfl

/-! ## Claim C4 -/

/-- C4 (amended): for every present key, `Delete` removes the entry from
memory and attempts the delete on every configured backing store, but when
more than one backing store fails it returns the LAST deletion error
encountered, not the first: if `p` is the last controller whose delete fails
(every later controller succeeds), the returned error is `p`'s, wrapped, and
the in-memory removal is not rolled back. -/
theorem c4_delete_returns_last_error (ps1 ps2 : List PersistenceController)
    (p : PersistenceController) (d : StoreData) (key : String)
    (mv : ValueItem) (e : GoError)
    (hlk : lookupKey d key = some mv)
    (hp : p.deleteErr key = some e)
    (h2 : ∀ q ∈ ps2, q.deleteErr key = none) :
    Store.Delete (ps1 ++ p :: ps2) d key =
      (eraseKey d key, some (GoError.wrapped "p.Delete" e)) := by
  have hfold : (ps1 ++ p :: ps2).foldl (Store.deleteErrStep key) none =
      some (GoError.wrapped "p.Delete" e) := by
    rw [List.foldl_append, List.foldl_cons]
    rw [foldl_deleteErrStep_none key ps2 _ h2]
    simp [Store.deleteErrStep, hp]
  simp [Store.Delete, Store.delete, hlk, hfold]

/-- C4 witness: two failing backing stores; the error of the second (last)
one is returned and the entry is gone from memory. -/
theorem c4_delete_returns_last_error_witness :
    Store.Delete
        [failingController (GoError.msg "delete failure one"),
         failingController (GoError.msg "delete failure two")]
        [("k", sampleItem)] "k" =
      ([], some (GoError.wrapped "p.Delete" (GoError.msg "delete failure two"))) :=
  c4_delete_returns_last_error
    [failingController (GoError.msg "delete failure one")] []
    (failingController (GoError.msg "delete failure two"))
    [("k", sampleItem)] "k" sampleItem (GoError.msg "delete failure two")
    rfl rfl (by intro q hq; cases hq)

/-- C4 counterexample: with two backing stores both failing, the claim says
the FIRST error ("delete failure one") is returned; the code returns the
second one. -/
theorem c4_first_error_counterexample :
    Store.Delete
        [failingController (GoError.msg "delete failure one"),
         failingController (GoError.msg "delete failure two")]
        [("j", sampleItem)] "j" =
      ([], some (GoError.wrapped "p.Delete" (GoError.msg "delete failure two"))) ∧
    GoError.wrapped "p.Delete" (GoError.msg "delete failure two") ≠
      GoError.wrapped "p.Delete" (GoError.msg "delete failure one") := by
  constructor
  · rfl
  · decide

/-! ## Claim C5 -/

/-- C5 (code evaluation at the failing input): on a store holding key `"a"`
with no expiry set (`TTL = TTLNoExpirySet`), `TTL("a")` queried 10 seconds
after the write returns `0`, not the `TTLNoExpirySet` sentinel: the code
computes the expiry formula for every present key and floors at 0, so the
promised "key exists with no expiry set" sentinel is never returned (the
`TTLNoExpirySet` constant's own doc comment says it is used to signal exactly
that when querying the TTL of a key). -/
theorem c5_ttl_no_expiry_returns_zero :
    Store.TTL [("a", sampleItem)] "a" (10 * nsPerSec) = 0 ∧
    (0 : TTLType) ≠ TTLNoExpirySet := by
  constructor
  · rfl
  · decide

/-! ## Claim C6 -/

/-- C6 (amended): an entry whose `ttlSeconds` field equals `0` is treated by
the expiry check as never expiring (exactly like `-1`), not as already
expired: `expired` returns `false` for every `TTL ≤ 0`. -/
theorem c6_ttl_zero_never_expires (mv : ValueItem) (now : Int)
    (h : mv.TTL = 0) : mv.expired now = false := by
  simp [ValueItem.expired, h]

/-- C6 witness: the `TTL = 0` entry is not expired at time 12345. -/
theorem c6_ttl_zero_never_expires_witness :
    zeroTTLItem.expired 12345 = false :=
  c6_ttl_zero_never_expires zeroTTLItem 12345 rfl

/-- C6 counterexample: a `TTL = 0` entry queried 100 seconds after its
timestamp is classified as NOT expired by the code, although the expiry
formula (`Ts + TTL seconds` strictly before `now`, the test applied when
`TTL > 0`) classifies it as expired, which is what the claim requires. -/
theorem c6_ttl_zero_counterexample :
    zeroTTLItem.expired (100 * nsPerSec) = false ∧
    zeroTTLItem.Ts + wrap64 (zeroTTLItem.TTL * nsPerSec) < 100 * nsPerSec := by
  constructor
  · rfl
  · decide

/-! ## Claim C7 -/

/-- C7 (code evaluation at the failing input): on a store holding key `"k"`
whose payload `"5"` parses as an integer but whose counter bounds are absent,
`Counter("k", 3)` leaves the entry untouched but returns a NIL error together
with value `0`: the guard builds its error with `errors.Wrap(err, "Store.Counter
counter boundaries not set")` where `err` is the nil error of the successful
`ParseInt`, and wrapping a nil error yields nil.  The claim (and the error
message in the code) requires a non-nil "boundaries not set" error. -/
theorem c7_counter_missing_bounds_nil_error :
    Store.Counter [] [("k", numItemNoBounds)] "k" 3 0 =
      ([("k", numItemNoBounds)], 0, none) ∧
    errorsWrap none "Store.Counter counter boundaries not set" = none := by
  constructor
  · rfl
  · rfl

/-! ## Claim C8 -/

/-- C8 (amended): for every existing counter-typed key with value `v` and
bounds `[min, max]` (with `min ≤ max`), and every delta such that `v + delta`
COMPUTED IN WRAPPING 64-BIT ARITHMETIC falls outside `[min, max]`,
`Counter(key, delta)` returns the distinct maximum-reached (respectively
minimum-reached) error and leaves the store data — hence the stored value and
all other entry state — unchanged. -/
theorem c8_counter_out_of_bounds_rejected (ps : List PersistenceController)
    (d : StoreData) (key : String) (mv : ValueItem) (c : CounterConstraints)
    (v delta now : Int)
    (hkv : KeyValid key = true)
    (hlk : lookupKey d key = some mv)
    (hparse : parseInt64 mv.Data = some v)
    (hc : mv.Counter = some c)
    (hb : c.Min ≤ c.Max) :
    (wrap64 (v + delta) > c.Max →
      Store.Counter ps d key delta now =
        (d, 0, some (GoError.msg "Store.Counter maximum value reached"))) ∧
    (wrap64 (v + delta) < c.Min →
      Store.Counter ps d key delta now =
        (d, 0, some (GoError.msg "Store.Counter minimum value reached"))) := by
  constructor
  · intro hgt
    simp [Store.Counter, hkv, hlk, hparse, hc, hgt]
  · intro hlt
    have hngt : ¬ wrap64 (v + delta) > c.Max := by omega
    simp [Store.Counter, hkv, hlk, hparse, hc, hngt, hlt]

/-- C8 witness: the spec's own scenario — value `-1` under bounds `[-1, 1]`,
delta `-1` — is rejected with the minimum-reached error and the store is
unchanged. -/
theorem c8_counter_out_of_bounds_rejected_witness :
    Store.Counter [] [("cw", boundedItem)] "cw" (-1) 0 =
      ([("cw", boundedItem)], 0,
        some (GoError.msg "Store.Counter minimum value reached")) :=
  (c8_counter_out_of_bounds_rejected [] [("cw", boundedItem)] "cw"
    boundedItem { Min := -1, Max := 1 } (-1) (-1) 0
    (by decide) rfl (by decide) rfl (by decide)).2 (by decide)

/-- C8 counterexample: the claim read with exact integer addition fails on
`int64` overflow.  Key `"k"` holds `math.MaxInt64` under full-range bounds
(exactly the entry `Set("k", "9223372036854775807")` creates); for
`delta = 1` the exact sum `v + 1` exceeds `max`, so the claim demands a
maximum-reached error and unchanged state, but the code wraps the sum to
`math.MinInt64`, stores it and returns it with a nil error. -/
theorem c8_overflow_counterexample :
    parseInt64 "9223372036854775807" = some int64Max ∧
    int64Max + 1 > int64Max ∧
    (Store.Counter [] [("k", maxIntItem)] "k" 1 0).2.2 = none ∧
    (Store.Counter [] [("k", maxIntItem)] "k" 1 0).2.1 = int64Min ∧
    (Store.Counter [] [("k", maxIntItem)] "k" 1 0).1 ≠ [("k", maxIntItem)] := by
  refine ⟨by decide, by decide, rfl, by decide, by decide⟩

/-! ## Claim C9 -/

/-- C9 (amended): a key is valid iff every one of its runes is a Unicode
letter, a Unicode digit, or one of the allow-list `: @ # + - _`.  In
particular the empty key is valid (there is no non-emptiness requirement) and
`/` is NOT in the allow-list. -/
theorem c9_keyValid_characterisation (key : String) :
    KeyValid key = true ↔
      (key.data.all fun c =>
        goIsLetter c || goIsDigit c || containsRune validRunes c) = true := by
  rw [KeyValid]
  induction key.data with
  | nil => simp [keyValidChars]
  | cons c cs ih =>
    cases hL : goIsLetter c <;> cases hD : goIsDigit c <;>
      cases hC : containsRune validRunes c <;>
      simp [keyValidChars, hL, hD, hC, ih]

/-- C9 counterexample: the claim requires the empty key to be invalid
(non-emptiness) and `"/"` to be valid (`/` in the allow-list); the code
accepts the empty key and rejects `"/"`. -/
theorem c9_counterexample :
    KeyValid "" = true ∧ KeyValid "/" = false := by
  constructor
  · rfl
  · decide

/-! ## Claim C10 -/

/-- C10: for every key absent from the store and every payload that parses as
a base-10 signed 64-bit integer, a successful `Set(key, payload)` creates the
entry already counter-typed with bounds spanning the full signed 64-bit range
`[-2^63, 2^63 - 1]` (so subsequent `Counter` calls on it run under full-range
bounds instead of failing as non-counter). -/
theorem c10_set_numeric_creates_counter (ps : List PersistenceController)
    (d d' : StoreData) (key bytes : String) (now n : Int)
    (habs : lookupKey d key = none)
    (hnum : parseInt64 bytes = some n)
    (hset : Store.Set ps d key bytes now = (d', none)) :
    lookupKey d' key = some
      { Data := bytes
        Counter := some { Min := int64Min, Max := int64Max }
        Ts := now
        TTL := TTLNoExpirySet
        dataLoaded := true } := by
  have hkv : KeyValid key = true :=
    Set_success_keyValid ps d key bytes now d' hset
  have hsome : (parseInt64 bytes).isSome = true := by rw [hnum]; rfl
  simp only [Store.Set, hkv, Bool.not_true, Bool.false_eq_true, if_false]
    at hset
  simp only [Store.setData, habs, Prod.mk.injEq] at hset
  obtain ⟨h1, -⟩ := hset
  subst h1
  rw [lookupKey_insertKey_self]
  congr 1
  simp [NewValueItem, ValueItem.SetData, hsome]

/-- C10 witness: `Set("k", "42")` on the empty store creates a counter-typed
entry with full-range bounds. -/
theorem c10_set_numeric_creates_counter_witness :
    lookupKey [("k", item42)] "k" = some
      { Data := "42"
        Counter := some { Min := int64Min, Max := int64Max }
        Ts := 0
        TTL := TTLNoExpirySet
        dataLoaded := true } :=
  c10_set_numeric_creates_counter [] [] [("k", item42)] "k" "42" 0 42
    rfl (by decide) (by decide)
